import Mathlib

/-!
Verification of the Budget-Agent cost-analysis core (src/backend/tools.py and
src/backend/server.py) by a shallow embedding: Python dicts become structures
with `Option` fields (a `none` field is a missing key), floats become `ℚ`,
and each analysis pass becomes a pure function over the loaded message list.
-/

namespace BudgetAgent

/-- A raw timestamp value as it appears in a log record.  Python values are
modelled by their observable behaviour: `absent` is `None` / a missing key;
`strVal empty parsed` is a string, carrying whether it is the empty string
(falsy in Python) and the result of `datetime.fromisoformat` on it (`none`
when parsing raises); `numVal q` is an int/float; `otherVal b` is a value of
any other type, carrying only its Python truthiness `b`. -/
inductive TS
  | absent
  | strVal (empty : Bool) (parsed : Option ℚ)
  | numVal (q : ℚ)
  | otherVal (truthy : Bool)
deriving DecidableEq

/-- Python truthiness of a timestamp value, used by the `if ts:` guards. -/
def tsTruthy : TS → Bool
  | .absent => false
  | .strVal e _ => !e
  | .numVal q => q != 0
  | .otherVal b => b

/-- `normalize_ts` from src/backend/server.py lines 17-28: `None` gives 0, a
string gives its `fromisoformat` epoch value or 0 when parsing raises, a
number greater than 1e12 is treated as epoch milliseconds and divided by
1000, any other number is epoch seconds, and any other type gives 0. -/
def normalize_ts : TS → ℚ
  | .absent => 0
  | .strVal _ p => p.getD 0
  | .numVal q => if (10 : ℚ) ^ 12 < q then q / 1000 else q
  | .otherVal _ => 0

/-- C6: `normalize_ts` is total (it is a Lean function, so it never raises):
absent, unparseable-string and other-typed inputs yield 0, a numeric input
strictly greater than 1e12 is divided by 1000, and any other numeric input
is returned as seconds. -/
theorem normalize_ts_total (e : Bool) (b : Bool) (q : ℚ) :
    normalize_ts .absent = 0 ∧
    normalize_ts (.strVal e none) = 0 ∧
    normalize_ts (.otherVal b) = 0 ∧
    ((10 : ℚ) ^ 12 < q → normalize_ts (.numVal q) = q / 1000) ∧
    (¬ (10 : ℚ) ^ 12 < q → normalize_ts (.numVal q) = q) := by
  refine ⟨rfl, rfl, rfl, fun h => ?_, fun h => ?_⟩
  · simp [normalize_ts, if_pos h]
  · simp [normalize_ts, if_neg h]

/-- Witness for C6 at concrete inputs: the milliseconds branch at 2·10¹². -/
theorem normalize_ts_total_witness :
    normalize_ts (.numVal (2 * 10 ^ 12)) = 2 * 10 ^ 12 / 1000 ∧
    normalize_ts (.numVal 5) = 5 := by
  refine ⟨(normalize_ts_total false false (2 * 10 ^ 12)).2.2.2.1 (by norm_num),
    (normalize_ts_total false false 5).2.2.2.2 (by norm_num)⟩

/-- C7 counterexample: `normalize_ts` is not idempotent on all inputs.  The
numeric input 2·10¹⁵ normalizes to 2·10¹² (one division by 1000), and
re-normalizing that result divides by 1000 again, giving 2·10⁹ ≠ 2·10¹². -/
theorem normalize_ts_not_idempotent :
    normalize_ts (.numVal (normalize_ts (.numVal (2 * 10 ^ 15)))) ≠
      normalize_ts (.numVal (2 * 10 ^ 15)) := by
  norm_num [normalize_ts]

/-- C7 amended: `normalize_ts` is idempotent on every input whose normalized
value is at most 1e12 — in particular re-normalizing an already-normalized
epoch-seconds value of at most 1e12 returns it unchanged.  (For a numeric
input above 1e15 the normalized value still exceeds 1e12 and is divided by
1000 a second time.) -/
theorem normalize_ts_idempotent (t : TS) (h : normalize_ts t ≤ (10 : ℚ) ^ 12) :
    normalize_ts (.numVal (normalize_ts t)) = normalize_ts t := by
  have hdef : normalize_ts (.numVal (normalize_ts t)) =
      if (10 : ℚ) ^ 12 < normalize_ts t then normalize_ts t / 1000
      else normalize_ts t := rfl
  rw [hdef, if_neg (not_lt.mpr h)]

/-- Witness for the amended C7 at the concrete input 5 (epoch seconds). -/
theorem normalize_ts_idempotent_witness :
    normalize_ts (.numVal (normalize_ts (.numVal 5))) = normalize_ts (.numVal 5) :=
  normalize_ts_idempotent (.numVal 5) (by norm_num [normalize_ts])

/-- Lowercase a Python string, as `str.lower()` does, viewed as characters. -/
def lowerStr (s : String) : List Char := s.toList.map Char.toLower

/-- `kw` is a prefix of the character list. -/
def startsWithL : List Char → List Char → Bool
  | [], _ => true
  | _ :: _, [] => false
  | a :: as, b :: bs => a == b && startsWithL as bs

/-- Python's `kw in content` substring test on character lists. -/
def hasSub (kw : List Char) : List Char → Bool
  | [] => kw.isEmpty
  | c :: rest => startsWithL kw (c :: rest) || hasSub kw rest

/-- `any(kw in content for kw in kws)` from the classifier. -/
def anyKw (kws : List String) (content : List Char) : Bool :=
  kws.any (fun k => hasSub k.toList content)

/-- One element of a structured `content` list: a `{"type": "text"}` dict, a
`{"type": "thinking"}` dict, a plain string, or anything else (skipped). -/
inductive CBlock
  | textB (s : String)
  | thinkingB (s : String)
  | strB (s : String)
  | otherB

/-- The `content` field of a message: a plain string, a list of blocks, or
any other type (contributing no text). -/
inductive ContentVal
  | strC (s : String)
  | listC (bs : List CBlock)
  | otherC

/-- Text contributed by one content block in `classify_message`: text and
thinking dicts and plain-string blocks are lowercased with a trailing space
appended; other blocks contribute nothing. -/
def blockChars : CBlock → List Char
  | .textB s => lowerStr s ++ [' ']
  | .thinkingB s => lowerStr s ++ [' ']
  | .strB s => lowerStr s ++ [' ']
  | .otherB => []

/-- The flattened lowercase content built at the top of `classify_message`
(src/backend/tools.py lines 34-45). -/
def flattenContent : ContentVal → List Char
  | .strC s => lowerStr s
  | .listC bs => (bs.map blockChars).flatten
  | .otherC => []

/-- The nine cost categories of the analysis (`categories` dict keys). -/
inductive Cat
  | heartbeat
  | memory_resync
  | whatsapp_reconnect
  | email_check
  | cost_report
  | cron_task
  | user_request
  | response
  | other
deriving DecidableEq

/-- The pre-computed cost sub-dict of a usage record (`usage["cost"]`);
`none` fields are missing keys. -/
structure CostDict where
  input : Option ℚ
  output : Option ℚ
  cacheRead : Option ℚ
  cacheWrite : Option ℚ
  total : Option ℚ
deriving DecidableEq

/-- The `usage` sub-dict of a message; `none` fields are missing keys. -/
structure UsageDict where
  input : Option ℤ
  output : Option ℤ
  cacheRead : Option ℤ
  cacheWrite : Option ℤ
  totalTokens : Option ℤ
  cost : Option CostDict
deriving DecidableEq

/-- Python falsiness of the usage dict (`if not usage:`): an empty dict, i.e.
every modelled key absent. -/
def UsageDict.isEmptyDict (u : UsageDict) : Bool :=
  u.input.isNone && u.output.isNone && u.cacheRead.isNone &&
    u.cacheWrite.isNone && u.totalTokens.isNone && u.cost.isNone

/-- The `message` sub-object of a log entry: role, content and usage.
`role` is `""` when the key is missing (`msg.get("role", "")`); an absent
`usage` key and an empty usage dict both make `extract_usage` return
nothing, so `usage = none` models the absent key. -/
structure MsgDict where
  role : String
  content : ContentVal
  usage : Option UsageDict

/-- The normalized extraction result of `extract_usage`. -/
structure UsageRec where
  input : ℤ
  output : ℤ
  cache_read : ℤ
  cache_write : ℤ
  total_tokens : ℤ
  cost_input : ℚ
  cost_output : ℚ
  cost_cache_read : ℚ
  cost_cache_write : ℚ
  cost_total : ℚ
deriving DecidableEq

/-- `extract_usage` from src/backend/tools.py lines 69-89: `None` when the
message has no (or an empty) usage dict; otherwise token counts default to
0, `total_tokens` is `usage.get("totalTokens", 0) or (input + output)`
(Python `or`: a zero or absent explicit total falls back to the sum), and
the cost breakdown defaults missing fields to 0. -/
def extract_usage (m : MsgDict) : Option UsageRec :=
  match m.usage with
  | none => none
  | some u =>
    if u.isEmptyDict then none
    else
      let cost_data := u.cost.getD ⟨none, none, none, none, none⟩
      some {
        input := u.input.getD 0
        output := u.output.getD 0
        cache_read := u.cacheRead.getD 0
        cache_write := u.cacheWrite.getD 0
        total_tokens :=
          if u.totalTokens.getD 0 = 0 then u.input.getD 0 + u.output.getD 0
          else u.totalTokens.getD 0
        cost_input := cost_data.input.getD 0
        cost_output := cost_data.output.getD 0
        cost_cache_read := cost_data.cacheRead.getD 0
        cost_cache_write := cost_data.cacheWrite.getD 0
        cost_total := cost_data.total.getD 0 }

/-- Keyword set for the heartbeat check (tools.py lines 46-47). -/
def heartbeatKws : List String :=
  ["heartbeat", "heartbeat_ok", "health check", "systems nominal",
   "all systems", "routine check"]

/-- Keyword set for the whatsapp_reconnect check (tools.py lines 49-50). -/
def whatsappKws : List String :=
  ["whatsapp", "gateway disconnect", "reconnect", "status 428",
   "connection lost", "reconectando", "desconect"]

/-- Keyword set for the memory_resync check (tools.py lines 52-53). -/
def memoryKws : List String :=
  ["memory resync", "soul.md", "loading conversation", "context reload",
   "compaction", "summarizing history"]

/-- Keyword set for the email_check check (tools.py lines 55-56). -/
def emailKws : List String :=
  ["himalaya", "inbox", "email scan", "checking email", "new emails",
   "correo", "mail check"]

/-- Keyword set for the cost_report check (tools.py lines 58-59). -/
def costReportKws : List String :=
  ["cost report", "session cost", "daily usage", "token usage",
   "spending report", "costo de sesion"]

/-- Keyword set for the cron_task check (tools.py line 61). -/
def cronKws : List String :=
  ["cron", "scheduled", "automated task", "periodic"]

/-- `classify_message` from src/backend/tools.py lines 30-67: flatten the
content, test the six keyword sets in their fixed order, first match wins,
then fall back on the role. -/
def classify_message (m : MsgDict) : Cat :=
  let content := flattenContent m.content
  if anyKw heartbeatKws content then .heartbeat
  else if anyKw whatsappKws content then .whatsapp_reconnect
  else if anyKw memoryKws content then .memory_resync
  else if anyKw emailKws content then .email_check
  else if anyKw costReportKws content then .cost_report
  else if anyKw cronKws content then .cron_task
  else if m.role == "user" then .user_request
  else if m.role == "assistant" then .response
  else .other

/-- C3: the classifier tests the keyword sets in the fixed priority order
heartbeat, whatsapp_reconnect, memory_resync, email_check, cost_report,
cron_task, first match winning — in particular any message whose flattened
lowercase content matches a heartbeat keyword (e.g. one that also matches a
whatsapp-reconnect keyword) is classified heartbeat — and a message
matching no keyword set falls back on the role: user maps to user_request,
assistant to response, anything else to other. -/
theorem classify_message_priority (m : MsgDict) :
    (anyKw heartbeatKws (flattenContent m.content) = true →
      classify_message m = .heartbeat) ∧
    (anyKw heartbeatKws (flattenContent m.content) = false →
      anyKw whatsappKws (flattenContent m.content) = true →
      classify_message m = .whatsapp_reconnect) ∧
    (anyKw heartbeatKws (flattenContent m.content) = false →
      anyKw whatsappKws (flattenContent m.content) = false →
      anyKw memoryKws (flattenContent m.content) = true →
      classify_message m = .memory_resync) ∧
    (anyKw heartbeatKws (flattenContent m.content) = false →
      anyKw whatsappKws (flattenContent m.content) = false →
      anyKw memoryKws (flattenContent m.content) = false →
      anyKw emailKws (flattenContent m.content) = true →
      classify_message m = .email_check) ∧
    (anyKw heartbeatKws (flattenContent m.content) = false →
      anyKw whatsappKws (flattenContent m.content) = false →
      anyKw memoryKws (flattenContent m.content) = false →
      anyKw emailKws (flattenContent m.content) = false →
      anyKw costReportKws (flattenContent m.content) = true →
      classify_message m = .cost_report) ∧
    (anyKw heartbeatKws (flattenContent m.content) = false →
      anyKw whatsappKws (flattenContent m.content) = false →
      anyKw memoryKws (flattenContent m.content) = false →
      anyKw emailKws (flattenContent m.content) = false →
      anyKw costReportKws (flattenContent m.content) = false →
      anyKw cronKws (flattenContent m.content) = true →
      classify_message m = .cron_task) ∧
    (anyKw heartbeatKws (flattenContent m.content) = false →
      anyKw whatsappKws (flattenContent m.content) = false →
      anyKw memoryKws (flattenContent m.content) = false →
      anyKw emailKws (flattenContent m.content) = false →
      anyKw costReportKws (flattenContent m.content) = false →
      anyKw cronKws (flattenContent m.content) = false →
      classify_message m =
        (if m.role == "user" then .user_request
         else if m.role == "assistant" then .response
         else .other)) := by
  refine ⟨fun h1 => ?_, fun h1 h2 => ?_, fun h1 h2 h3 => ?_,
    fun h1 h2 h3 h4 => ?_, fun h1 h2 h3 h4 h5 => ?_,
    fun h1 h2 h3 h4 h5 h6 => ?_, fun h1 h2 h3 h4 h5 h6 => ?_⟩
  · simp [classify_message, h1]
  · simp [classify_message, h1, h2]
  · simp [classify_message, h1, h2, h3]
  · simp [classify_message, h1, h2, h3, h4]
  · simp [classify_message, h1, h2, h3, h4, h5]
  · simp [classify_message, h1, h2, h3, h4, h5, h6]
  · simp [classify_message, h1, h2, h3, h4, h5, h6]

/-- Witness for C3: a message containing both the heartbeat keyword
"heartbeat" and the whatsapp keyword "reconnect" classifies as heartbeat,
and a keyword-free user message falls back to user_request. -/
theorem classify_message_priority_witness :
    classify_message ⟨"assistant", .strC "Heartbeat OK after reconnect", none⟩ =
      .heartbeat ∧
    classify_message ⟨"user", .strC "hello there my friend", none⟩ =
      .user_request := by
  constructor
  · exact (classify_message_priority _).1 (by decide)
  · have h := (classify_message_priority
      ⟨"user", .strC "hello there my friend", none⟩).2.2.2.2.2.2
      (by decide) (by decide) (by decide) (by decide) (by decide) (by decide)
    simpa using h

/-- Helper: the value `extract_usage` returns on a present, non-empty
usage dict, spelled out field by field. -/
theorem extract_usage_eq (m : MsgDict) (u : UsageDict)
    (hm : m.usage = some u) (hne : u.isEmptyDict = false) :
    extract_usage m = some
      { input := u.input.getD 0
        output := u.output.getD 0
        cache_read := u.cacheRead.getD 0
        cache_write := u.cacheWrite.getD 0
        total_tokens :=
          if u.totalTokens.getD 0 = 0 then u.input.getD 0 + u.output.getD 0
          else u.totalTokens.getD 0
        cost_input := (u.cost.getD ⟨none, none, none, none, none⟩).input.getD 0
        cost_output := (u.cost.getD ⟨none, none, none, none, none⟩).output.getD 0
        cost_cache_read :=
          (u.cost.getD ⟨none, none, none, none, none⟩).cacheRead.getD 0
        cost_cache_write :=
          (u.cost.getD ⟨none, none, none, none, none⟩).cacheWrite.getD 0
        cost_total := (u.cost.getD ⟨none, none, none, none, none⟩).total.getD 0 } := by
  simp [extract_usage, hm, hne]

/-- C4: when the usage dict carries no explicit `totalTokens` key, the
extracted `total_tokens` is the input token count plus the output token
count, absent fields defaulting to zero. -/
theorem extract_usage_total_default (m : MsgDict) (u : UsageDict)
    (hm : m.usage = some u) (hne : u.isEmptyDict = false)
    (ht : u.totalTokens = none) :
    ∃ r, extract_usage m = some r ∧
      r.total_tokens = u.input.getD 0 + u.output.getD 0 := by
  refine ⟨_, extract_usage_eq m u hm hne, ?_⟩
  simp [ht]

/-- Witness for C4 at a concrete usage dict with input 100 and output 50. -/
theorem extract_usage_total_default_witness :
    ∃ r, extract_usage
        ⟨"user", .otherC, some ⟨some 100, some 50, none, none, none, none⟩⟩ =
        some r ∧ r.total_tokens = 150 := by
  obtain ⟨r, hr, htot⟩ := extract_usage_total_default
    ⟨"user", .otherC, some ⟨some 100, some 50, none, none, none, none⟩⟩
    ⟨some 100, some 50, none, none, none, none⟩ rfl (by decide) rfl
  exact ⟨r, hr, by rw [htot]; decide⟩

/-- C10: an explicit `totalTokens` equal to 0 is discarded (Python `or` on
a falsy 0) and `total_tokens` falls back to input plus output; an explicit
total is preserved exactly when it is nonzero. -/
theorem extract_usage_explicit_total (m : MsgDict) (u : UsageDict)
    (hm : m.usage = some u) (hne : u.isEmptyDict = false) :
    (u.totalTokens = some 0 →
      ∃ r, extract_usage m = some r ∧
        r.total_tokens = u.input.getD 0 + u.output.getD 0) ∧
    (∀ t : ℤ, u.totalTokens = some t → t ≠ 0 →
      ∃ r, extract_usage m = some r ∧ r.total_tokens = t) := by
  constructor
  · intro ht
    refine ⟨_, extract_usage_eq m u hm hne, ?_⟩
    simp [ht]
  · intro t ht htnz
    refine ⟨_, extract_usage_eq m u hm hne, ?_⟩
    simp [ht, htnz]

/-- Witness for C10: an explicit totalTokens of 0 yields 100 + 50 = 150,
and an explicit totalTokens of 7 is preserved. -/
theorem extract_usage_explicit_total_witness :
    (∃ r, extract_usage
        ⟨"user", .otherC, some ⟨some 100, some 50, none, none, some 0, none⟩⟩ =
        some r ∧ r.total_tokens = 150) ∧
    (∃ r, extract_usage
        ⟨"user", .otherC, some ⟨some 100, some 50, none, none, some 7, none⟩⟩ =
        some r ∧ r.total_tokens = 7) := by
  constructor
  · obtain ⟨r, hr, htot⟩ := (extract_usage_explicit_total
      ⟨"user", .otherC, some ⟨some 100, some 50, none, none, some 0, none⟩⟩
      ⟨some 100, some 50, none, none, some 0, none⟩ rfl (by decide)).1 rfl
    exact ⟨r, hr, by rw [htot]; decide⟩
  · obtain ⟨r, hr, htot⟩ := (extract_usage_explicit_total
      ⟨"user", .otherC, some ⟨some 100, some 50, none, none, some 7, none⟩⟩
      ⟨some 100, some 50, none, none, some 7, none⟩ rfl (by decide)).2
      7 rfl (by decide)
    exact ⟨r, hr, htot⟩

/-- Python `max(a, b)` on numbers: the second argument when the first is
smaller, else the first.  (Stated with `<` so it reduces by computation.) -/
def pymax (a b : ℚ) : ℚ := if a < b then b else a

/-- Python `min(a, b)` on numbers. -/
def pymin (a b : ℚ) : ℚ := if a < b then a else b

/-- `pymax x 1` is the floor-at-1 used by every active-days computation. -/
theorem pymax_one_le (x : ℚ) : 1 ≤ pymax x 1 := by
  by_cases h : x < 1
  · simp [pymax, h]
  · simp only [pymax, h, if_false]
    exact not_lt.mp h

/-- Python `min(l)` on a nonempty list of rationals (0 on `[]`, a case the
callers guard). -/
def listMin : List ℚ → ℚ
  | [] => 0
  | x :: xs => xs.foldl pymin x

/-- Python `max(l)` on a nonempty list of rationals (0 on `[]`). -/
def listMax : List ℚ → ℚ
  | [] => 0
  | x :: xs => xs.foldl pymax x

/-- The `timestamps_s` conversion loop of `find_hidden_costs`
(src/backend/tools.py lines 219-228): strings keep their `fromisoformat`
value and are dropped when parsing raises, numbers above 1e12 are divided
by 1000, and any other value is dropped. -/
def tools_normalize (l : List TS) : List ℚ :=
  l.filterMap fun t =>
    match t with
    | .strVal _ p => p
    | .numVal q => some (if (10 : ℚ) ^ 12 < q then q / 1000 else q)
    | _ => none

/-- The active-days computation of `find_hidden_costs` (src/backend/tools.py
lines 218-234), applied to the collected truthy `timestamps` list: 14 when
no timestamps or none convert, else `max((max - min) / 86400, 1)` — with no
upper clamp. -/
def tools_active_days (timestamps : List TS) : ℚ :=
  if timestamps.isEmpty then 14
  else
    let s := tools_normalize timestamps
    if s.isEmpty then 14
    else pymax ((listMax s - listMin s) / 86400) 1

/-- The pre-clamp span computation of the server analysis paths
(src/backend/server.py lines 118-122 and 219-223), applied to the collected
list of `normalize_ts` values: filter to values above 1e6 (min and max both
0 when none remain), divide min and max by 1000 again when the min exceeds
1e12, and take `max((mx - mn) / 86400, 1)`.  (The `active_days = 12`
assigned when no valid timestamp remains is dead: the next line overwrites
it with `max(0 / 86400, 1) = 1`.) -/
def server_span_days (timestamps : List ℚ) : ℚ :=
  let valid := timestamps.filter (fun t => 1000000 < t)
  let mn := if valid.isEmpty then 0 else listMin valid
  let mx := if valid.isEmpty then 0 else listMax valid
  let mn2 := if (10 : ℚ) ^ 12 < mn then mn / 1000 else mn
  let mx2 := if (10 : ℚ) ^ 12 < mn then mx / 1000 else mx
  pymax ((mx2 - mn2) / 86400) 1

/-- The active-days value of the server analysis paths (`api_hidden_costs`
and the `api_chat` fallback): 14 when no timestamps were collected, else
the span, replaced by the fallback 12 when it exceeds 30 days. -/
def server_active_days (timestamps : List ℚ) : ℚ :=
  if timestamps.isEmpty then 14
  else if 30 < server_span_days timestamps then 12
  else server_span_days timestamps

/-- C2 counterexample: the claim says every analysis pass clamps a span
above 30 days to 12, but `find_hidden_costs` (src/backend/tools.py) has no
clamp: two timestamps 40 days apart give active days 40, which exceeds 30
and is not 12. -/
theorem tools_active_days_not_clamped :
    tools_active_days [TS.numVal 86400, TS.numVal (41 * 86400)] = 40 ∧
    (30 : ℚ) < 40 ∧ (40 : ℚ) ≠ 12 := by
  refine ⟨?_, by norm_num, by norm_num⟩
  norm_num [tools_active_days, tools_normalize, List.filterMap_cons, listMin, listMax,
    pymax, pymin]

/-- C2 amended: active days is never less than 1 in any pass; in
`find_hidden_costs` it is `max((max - min) / 86400, 1)` over the converted
timestamps with no upper clamp; in the server paths (`api_hidden_costs`,
`api_chat`) the span — computed over the normalized timestamps above 1e6,
re-divided by 1000 when the minimum exceeds 1e12, floored at 1 — is
replaced by the fixed fallback 12 exactly when it exceeds 30 days. -/
theorem active_days_amended (l : List TS) (ns : List ℚ) :
    1 ≤ tools_active_days l ∧
    1 ≤ server_active_days ns ∧
    (l.isEmpty = false → (tools_normalize l).isEmpty = false →
      tools_active_days l =
        pymax ((listMax (tools_normalize l) - listMin (tools_normalize l)) / 86400) 1) ∧
    (ns.isEmpty = false → 30 < server_span_days ns →
      server_active_days ns = 12) ∧
    (ns.isEmpty = false → ¬ 30 < server_span_days ns →
      server_active_days ns = server_span_days ns) := by
  refine ⟨?_, ?_, fun h1 h2 => ?_, fun h1 h2 => ?_, fun h1 h2 => ?_⟩
  · by_cases h : l.isEmpty = true
    · simp [tools_active_days, h]
    · by_cases h2 : (tools_normalize l).isEmpty = true
      · simp [tools_active_days, h, h2]
      · simp only [tools_active_days, h, h2, Bool.false_eq_true, if_false]
        exact pymax_one_le _
  · by_cases h : ns.isEmpty = true
    · simp [server_active_days, h]
    · by_cases h2 : 30 < server_span_days ns
      · simp [server_active_days, h, h2]
      · simp only [server_active_days, h, h2, Bool.false_eq_true, if_false]
        simp only [server_span_days]
        exact pymax_one_le _
  · simp [tools_active_days, h1, h2]
  · simp [server_active_days, h1, h2]
  · simp [server_active_days, h1, h2]

/-- Witness for the amended C2: a single timestamp gives at least one
active day, a 2-day tools span is the max/min formula, and a 31-day server
span is replaced by 12. -/
theorem active_days_amended_witness :
    1 ≤ tools_active_days [TS.numVal 100] ∧
    tools_active_days [TS.numVal 86400, TS.numVal (3 * 86400)] =
      pymax ((listMax (tools_normalize [TS.numVal 86400, TS.numVal (3 * 86400)]) -
        listMin (tools_normalize [TS.numVal 86400, TS.numVal (3 * 86400)])) / 86400) 1 ∧
    server_active_days [2000000, 2000000 + 31 * 86400] = 12 := by
  refine ⟨(active_days_amended [TS.numVal 100] []).1, ?_, ?_⟩
  · exact (active_days_amended [TS.numVal 86400, TS.numVal (3 * 86400)] []).2.2.1
      (by decide) (by decide)
  · exact (active_days_amended [] [2000000, 2000000 + 31 * 86400]).2.2.2.1
      (by decide)
      (by norm_num [server_span_days, List.filter_cons, listMin, listMax, pymax, pymin])

/-- One complexity tier picked by `estimate_task_cost`: token multiplier,
complexity label, time estimate and estimated tool calls. -/
structure TierInfo where
  mult : ℚ
  complexity : String
  est_time : String
  est_tools : ℕ
deriving DecidableEq

/-- High-complexity keyword set of `estimate_task_cost` (tools.py 313). -/
def highKws : List String :=
  ["research", "investigate", "analyze", "deep dive", "compare"]

/-- Drafting keyword set of `estimate_task_cost` (tools.py 315). -/
def draftKws : List String := ["email", "draft", "write", "reply", "correo"]

/-- Low-complexity keyword set of `estimate_task_cost` (tools.py 317). -/
def lowKws : List String := ["check", "status", "list", "show", "revisar"]

/-- Summarize keyword set of `estimate_task_cost` (tools.py 319). -/
def summarizeKws : List String := ["summarize", "recap", "resumen"]

/-- Browse keyword set of `estimate_task_cost` (tools.py 321). -/
def browseKws : List String := ["browse", "search", "find", "buscar"]

/-- The complexity-tier selection of `estimate_task_cost`
(src/backend/tools.py lines 312-324): lowercase the task description and
test the five keyword sets in order, defaulting to the medium tier. -/
def estimate_task_tier (task : List Char) : TierInfo :=
  let task_lower := task.map Char.toLower
  if anyKw highKws task_lower then ⟨4, "high", "3-8 min", 8⟩
  else if anyKw draftKws task_lower then ⟨1.5, "medium", "30-90s", 2⟩
  else if anyKw lowKws task_lower then ⟨0.8, "low", "10-30s", 1⟩
  else if anyKw summarizeKws task_lower then ⟨2.5, "medium-high", "1-3 min", 3⟩
  else if anyKw browseKws task_lower then ⟨3, "medium", "2-5 min", 5⟩
  else ⟨1.5, "medium", "1-3 min", 3⟩

/-- C8: any task description whose lowercase text contains "research"
selects the high tier — multiplier 4.0, complexity "high", 8 estimated
tool calls — regardless of which other tier keywords also appear, because
the high-tier test runs first. -/
theorem estimate_task_research_high (task : List Char)
    (h : hasSub ("research".toList) (task.map Char.toLower) = true) :
    estimate_task_tier task = ⟨4, "high", "3-8 min", 8⟩ := by
  have hany : anyKw highKws (task.map Char.toLower) = true := by
    simp only [anyKw, highKws, List.any_cons, h, Bool.true_or]
  simp [estimate_task_tier, hany]

/-- Witness for C8: a concrete description containing "research" (and also
the low-tier keyword "check") gets multiplier 4 and 8 tool calls. -/
theorem estimate_task_research_high_witness :
    estimate_task_tier ("Research and check the market".toList) =
      ⟨4, "high", "3-8 min", 8⟩ :=
  estimate_task_research_high _ (by decide)

/-- One loaded log entry: its `type` field, `message` sub-object, top-level
`timestamp`, and the `_source_file` tag stamped by the loader. -/
structure Entry where
  typ : String
  message : MsgDict
  timestamp : TS
  sourceFile : String

/-- The `usage["cost"]["total"]` contribution of one entry to a cost sum:
0 when the entry has no usage (each aggregation loop skips such entries,
which is the same as adding 0 to every cost accumulator). -/
def entryCost (e : Entry) : ℚ :=
  match extract_usage e.message with
  | none => 0
  | some u => u.cost_total

/-- The `usage["cost"]["cacheRead"]` contribution of one entry. -/
def entryCacheReadCost (e : Entry) : ℚ :=
  match extract_usage e.message with
  | none => 0
  | some u => u.cost_cache_read

/-- The `usage["cost"]["cacheWrite"]` contribution of one entry. -/
def entryCacheWriteCost (e : Entry) : ℚ :=
  match extract_usage e.message with
  | none => 0
  | some u => u.cost_cache_write

/-- The directly-accumulated `total_cost` of a pass (`total_cost +=
usage["cost"]["total"]` over the usage-bearing entries). -/
def totalCost (entries : List Entry) : ℚ := (entries.map entryCost).sum

/-- `categories[c]["cost"]` after the aggregation loop: the summed cost of
the entries classified into category `c`. -/
def catSum (c : Cat) (entries : List Entry) : ℚ :=
  ((entries.filter (fun e => classify_message e.message == c)).map entryCost).sum

/-- `user_cost` of `find_hidden_costs` and `api_hidden_costs`: the summed
cost of the user_request and response categories. -/
def user_cost (entries : List Entry) : ℚ :=
  catSum .user_request entries + catSum .response entries

/-- `hidden_cost` of `find_hidden_costs` and `api_hidden_costs`: the summed
cost of every category other than user_request and response, in the
iteration order of the `categories` dict. -/
def hidden_cost (entries : List Entry) : ℚ :=
  catSum .heartbeat entries + catSum .memory_resync entries +
    catSum .whatsapp_reconnect entries + catSum .email_check entries +
    catSum .cost_report entries + catSum .cron_task entries +
    catSum .other entries

/-- `total_cost = user_cost + hidden_cost` of `find_hidden_costs`
(src/backend/tools.py line 216). -/
def fhc_total_cost (entries : List Entry) : ℚ :=
  user_cost entries + hidden_cost entries

/-- The `api_chat` fallback's `total_cost`, accumulated directly over the
usage-bearing entries (src/backend/server.py line 213). -/
def chat_total_cost (entries : List Entry) : ℚ := totalCost entries

/-- The `api_chat` fallback's `hidden_cost = total_cost - user_cost`
(src/backend/server.py line 228). -/
def chat_hidden_cost (entries : List Entry) : ℚ :=
  chat_total_cost entries - user_cost entries

/-- Helper: prepending an entry adds its cost to exactly the category the
classifier assigns it. -/
theorem catSum_cons (c : Cat) (e : Entry) (es : List Entry) :
    catSum c (e :: es) =
      (if classify_message e.message = c then entryCost e else 0) + catSum c es := by
  by_cases h : classify_message e.message = c
  · simp [catSum, List.filter_cons, h]
  · simp [catSum, List.filter_cons, h]

/-- Helper: the nine per-category cost sums partition the directly
accumulated total cost — every entry lands in exactly one category. -/
theorem sum_catSum (es : List Entry) :
    catSum .heartbeat es + catSum .memory_resync es +
      catSum .whatsapp_reconnect es + catSum .email_check es +
      catSum .cost_report es + catSum .cron_task es +
      catSum .user_request es + catSum .response es + catSum .other es =
      totalCost es := by
  induction es with
  | nil => simp [catSum, totalCost]
  | cons e es ih =>
    have ht : totalCost (e :: es) = entryCost e + totalCost es := by
      simp [totalCost]
    simp only [catSum_cons, ht, ← ih]
    rcases hc : classify_message e.message <;> simp [hc] <;> ring

/-- Helper: the category-split total of the hidden-costs paths equals the
directly accumulated total. -/
theorem fhc_total_eq_totalCost (es : List Entry) :
    fhc_total_cost es = totalCost es := by
  unfold fhc_total_cost user_cost hidden_cost
  rw [← sum_catSum es]
  ring

/-- C1: in `find_hidden_costs` and in the `api_chat` fallback, the reported
user-initiated cost plus the reported hidden cost equals the reported total
cost, where the hidden cost equals the summed cost of every category other
than user_request and response (in `api_chat` it is computed as
`total_cost - user_cost`, which the category partition shows is the same
sum). -/
theorem user_plus_hidden_eq_total (entries : List Entry) :
    user_cost entries + hidden_cost entries = fhc_total_cost entries ∧
    user_cost entries + chat_hidden_cost entries = chat_total_cost entries ∧
    chat_hidden_cost entries = hidden_cost entries := by
  refine ⟨rfl, by unfold chat_hidden_cost; ring, ?_⟩
  have h := fhc_total_eq_totalCost entries
  unfold fhc_total_cost at h
  unfold chat_hidden_cost chat_total_cost
  linarith

/-- `file_costs` accumulation step of `get_agent_overview` and
`api_overview`: an association-list update mirroring the Python dict update
`file_costs[source]["cost"] += usage["cost"]["total"]` (a new source file
is appended, as dict insertion order does). -/
def addTo : List (String × ℚ) → String → ℚ → List (String × ℚ)
  | [], k, v => [(k, v)]
  | (k', v') :: rest, k, v =>
      if k' == k then (k', v' + v) :: rest else (k', v') :: addTo rest k v

/-- One iteration of the `get_agent_overview` loop restricted to the cost
aggregate: entries without usage are skipped, others add their total cost
to their source file's bucket. -/
def fileStep (m : List (String × ℚ)) (e : Entry) : List (String × ℚ) :=
  match extract_usage e.message with
  | none => m
  | some u => addTo m e.sourceFile u.cost_total

/-- The per-source-file cost aggregates of `get_agent_overview`
(src/backend/tools.py lines 118-137). -/
def file_costs (entries : List Entry) : List (String × ℚ) :=
  entries.foldl fileStep []

/-- The overview path's total cost viewed as the sum over the
per-source-file aggregates. -/
def overview_total_cost (entries : List Entry) : ℚ :=
  ((file_costs entries).map Prod.snd).sum

/-- Helper: an association-list update adds its value to the total. -/
theorem sum_addTo (m : List (String × ℚ)) (k : String) (v : ℚ) :
    ((addTo m k v).map Prod.snd).sum = (m.map Prod.snd).sum + v := by
  induction m with
  | nil => simp [addTo]
  | cons p rest ih =>
    rcases p with ⟨k', v'⟩
    by_cases h : (k' == k) = true
    · simp [addTo, h]
      ring
    · simp [addTo, h, ih]
      ring

/-- Helper: folding the overview step over any accumulator adds exactly the
entries' total cost. -/
theorem sum_foldl_fileStep (es : List Entry) :
    ∀ m : List (String × ℚ),
      ((es.foldl fileStep m).map Prod.snd).sum =
        (m.map Prod.snd).sum + totalCost es := by
  induction es with
  | nil => intro m; simp [totalCost]
  | cons e es ih =>
    intro m
    have ht : totalCost (e :: es) = entryCost e + totalCost es := by
      simp [totalCost]
    rw [List.foldl_cons, ih, ht]
    rcases hu : extract_usage e.message with _ | u
    · simp [fileStep, hu, entryCost]
    · simp [fileStep, hu, entryCost, sum_addTo]
      ring

/-- C9: the overview path's total cost — the sum over per-source-file
aggregates of each usage record's total cost — equals exactly the
hidden-costs path's total — the sum over per-category aggregates of the
same records. -/
theorem overview_total_matches_hidden_total (entries : List Entry) :
    overview_total_cost entries = fhc_total_cost entries := by
  rw [fhc_total_eq_totalCost]
  unfold overview_total_cost file_costs
  rw [sum_foldl_fileStep]
  simp

/-- Python's `round(q, nd)` modelled on exact rationals: round half to
even at `nd` decimal digits. -/
def pyRound (nd : ℕ) (q : ℚ) : ℚ :=
  let s := q * 10 ^ nd
  let f := ⌊s⌋
  let r := if s - f < 1 / 2 then f
           else if 1 / 2 < s - f then f + 1
           else if f % 2 = 0 then f else f + 1
  (r : ℚ) / 10 ^ nd

/-- One recommendation emitted by an analysis pass.  The cache-overhead
recommendation's issue text embeds the formatted dollar amount in the code;
here only its constant prefix is kept. -/
structure RecItem where
  issue : String
  monthly_waste : ℚ
  fix : String
  savings_pct : ℚ
deriving DecidableEq

/-- The `rec` helper of `find_hidden_costs` (src/backend/tools.py lines
239-243): a category with positive cost contributes one recommendation with
`monthly_waste = round(cost / active_days * 30, 2)`, a zero-cost category
contributes none. -/
def mkRec (cost active_days : ℚ) (issue fix : String) (savings : ℚ) : List RecItem :=
  if 0 < cost then [⟨issue, pyRound 2 (cost / active_days * 30), fix, savings⟩]
  else []

/-- The cache-read recommendation of `find_hidden_costs` (tools.py lines
256-264): emitted when the cache-read cost is positive and its monthly
projection exceeds $0.01. -/
def cacheRecs (cache_read_cost active_days : ℚ) : List RecItem :=
  if 0 < cache_read_cost then
    (let cache_monthly := cache_read_cost / active_days * 30
     if 0.01 < cache_monthly then
       [⟨"Cache read overhead", pyRound 2 cache_monthly,
         "Oversized system prompts or history re-sent each turn. Trim prompt, use sliding window.",
         40⟩]
     else [])
  else []

/-- The truthy top-level timestamps of the usage-bearing entries, as
collected by the `find_hidden_costs` loop (tools.py lines 211-213). -/
def fhc_timestamps (entries : List Entry) : List TS :=
  entries.filterMap fun e =>
    match extract_usage e.message with
    | none => none
    | some _ => if tsTruthy e.timestamp then some e.timestamp else none

/-- `total_cache_read_cost` of `find_hidden_costs` (tools.py line 209). -/
def fhc_cache_read_cost (entries : List Entry) : ℚ :=
  (entries.map entryCacheReadCost).sum

/-- `total_cache_write_cost` of `find_hidden_costs` (tools.py line 210). -/
def fhc_cache_write_cost (entries : List Entry) : ℚ :=
  (entries.map entryCacheWriteCost).sum

/-- The `summary` object of the `find_hidden_costs` JSON result, with the
`round(·, k)` display rounding applied as in the code. -/
structure FHCSummary where
  total_cost : ℚ
  user_initiated_cost : ℚ
  hidden_cost : ℚ
  waste_percentage : ℚ
  active_days_analyzed : ℚ
  daily_avg_cost : ℚ
  projected_monthly_total : ℚ
  projected_monthly_hidden : ℚ
  cache_read_cost : ℚ
  cache_write_cost : ℚ
deriving DecidableEq

/-- The parts of the `find_hidden_costs` JSON result the claims speak
about: summary, recommendations, total potential savings. -/
structure FHCResult where
  summary : FHCSummary
  recommendations : List RecItem
  total_potential_monthly_savings : ℚ
deriving DecidableEq

/-- `find_hidden_costs` (src/backend/tools.py lines 166-286) as a function
of the loaded entries: classify and aggregate per category, partition into
user and hidden cost, derive waste percentage and active days, project
monthly figures and emit the fixed-order recommendations. -/
def find_hidden_costs (entries : List Entry) : FHCResult :=
  let user := user_cost entries
  let hidden := hidden_cost entries
  let total := user + hidden
  let waste := if 0 < total then hidden / total * 100 else 0
  let active_days := tools_active_days (fhc_timestamps entries)
  let daily := total / active_days
  let cacheR := fhc_cache_read_cost entries
  let cacheW := fhc_cache_write_cost entries
  let recs :=
    mkRec (catSum .heartbeat entries) active_days
      "Heartbeat overhead - LLM health checks burning tokens 24/7"
      "Replace LLM heartbeats with HTTP pings. Only invoke model when action needed." 80 ++
    mkRec (catSum .memory_resync entries) active_days
      "Full memory resyncs reloading SOUL.md + history"
      "Cache SOUL.md locally. Incremental history loading. Only full resync after reconnects." 60 ++
    mkRec (catSum .whatsapp_reconnect entries) active_days
      "WhatsApp reconnects invoking the LLM"
      "Handle reconnects at transport layer. Simple state machine, no LLM needed." 95 ++
    mkRec (catSum .email_check entries) active_days
      "Himalaya email scans using LLM to check inbox"
      "Use himalaya CLI directly. Only invoke LLM when emails need processing/response." 75 ++
    mkRec (catSum .cost_report entries) active_days
      "Auto cost reports using LLM for arithmetic"
      "Generate cost reports with bash script. Zero token cost for math." 100 ++
    mkRec (catSum .cron_task entries) active_days
      "Cron tasks consuming tokens on schedule"
      "Gate cron tasks behind lightweight checks. Only invoke LLM when action is needed." 50 ++
    cacheRecs cacheR active_days
  { summary :=
    { total_cost := pyRound 4 total
      user_initiated_cost := pyRound 4 user
      hidden_cost := pyRound 4 hidden
      waste_percentage := pyRound 1 waste
      active_days_analyzed := pyRound 1 active_days
      daily_avg_cost := pyRound 4 daily
      projected_monthly_total := pyRound 2 (daily * 30)
      projected_monthly_hidden := pyRound 2 (hidden / active_days * 30)
      cache_read_cost := pyRound 4 cacheR
      cache_write_cost := pyRound 4 cacheW }
    recommendations := recs
    total_potential_monthly_savings :=
      pyRound 2 ((recs.map (fun r => r.monthly_waste * r.savings_pct / 100)).sum) }

/-- `load_all_messages` (src/backend/tools.py lines 91-108) as a function
of the data directory's observable contents: `none` is a missing directory
(whose `*.jsonl` glob yields nothing); otherwise a list of (file name,
parsed lines), a line being `none` when `json.loads` raises (skipped) and
`some e` otherwise.  Records whose `type` is not "message" are dropped and
kept records are stamped with their source file name. -/
def load_all_messages (dataDir : Option (List (String × List (Option Entry)))) :
    List Entry :=
  match dataDir with
  | none => []
  | some files =>
    (files.map (fun f =>
      ((f.2.filterMap id).filter (fun e => e.typ == "message")).map
        (fun e => { e with sourceFile := f.1 }))).flatten

/-- Helper: a missing directory or files with no parseable "message"
record load to the empty entry list. -/
theorem load_all_messages_empty
    (dataDir : Option (List (String × List (Option Entry))))
    (h : dataDir = none ∨
      ∀ fl ∈ dataDir.getD [], ∀ l ∈ fl.2, ∀ e, l = some e → e.typ ≠ "message") :
    load_all_messages dataDir = [] := by
  rcases h with h | h
  · rw [h]; rfl
  · rcases dataDir with _ | files
    · rfl
    · simp only [load_all_messages, List.flatten_eq_nil_iff]
      intro xs hxs
      simp only [List.mem_map] at hxs
      rcases hxs with ⟨fl, hfl, rfl⟩
      simp only [List.map_eq_nil_iff, List.filter_eq_nil_iff]
      intro e he
      simp only [List.mem_filterMap, id] at he
      rcases he with ⟨l, hl, rfl⟩
      have := h fl (by simpa using hfl) (some e) hl e rfl
      simpa using this

/-- C5: on a missing data directory, or one whose files contain no
parseable record of type "message", `find_hidden_costs` returns (rather
than raising) a summary with `total_cost = 0`, `waste_percentage = 0` and
an empty recommendations list. -/
theorem find_hidden_costs_empty
    (dataDir : Option (List (String × List (Option Entry))))
    (h : dataDir = none ∨
      ∀ fl ∈ dataDir.getD [], ∀ l ∈ fl.2, ∀ e, l = some e → e.typ ≠ "message") :
    (find_hidden_costs (load_all_messages dataDir)).summary.total_cost = 0 ∧
    (find_hidden_costs (load_all_messages dataDir)).summary.waste_percentage = 0 ∧
    (find_hidden_costs (load_all_messages dataDir)).recommendations = [] := by
  rw [load_all_messages_empty dataDir h]
  refine ⟨?_, ?_, ?_⟩ <;>
    norm_num [find_hidden_costs, user_cost, hidden_cost, catSum, mkRec, cacheRecs,
      fhc_cache_read_cost, fhc_cache_write_cost, fhc_timestamps, pyRound]

/-- Witness for C5: the missing-directory case. -/
theorem find_hidden_costs_empty_witness :
    (find_hidden_costs (load_all_messages none)).summary.total_cost = 0 ∧
    (find_hidden_costs (load_all_messages none)).summary.waste_percentage = 0 ∧
    (find_hidden_costs (load_all_messages none)).recommendations = [] :=
  find_hidden_costs_empty none (Or.inl rfl)

end BudgetAgent
